import Mathlib

/-!
Shallow embedding of the fcc semantic-analysis core: the type algebra
(src type.c) and the expression/initializer analyzer (src analyzer-value.c).

Modelling conventions:
* A C `sym*` is modelled as a `Nat` identifier into a symbol store
  (`symStore`); pointer equality on symbols becomes `Nat` equality.
* A C `type*` tree is the inductive `type`.  The fields of the C struct that
  a given tag never sets are `0`/`NULL` in the source (`typeCreate` zeroes
  them); accessors below reproduce those defaults where the C code reads a
  field of a foreign tag.
* Reads through a `NULL` pointer (undefined behavior in the C) are modelled
  by returning `none`; functions that can hit such a read return `Option`.
-/

set_option linter.unnecessarySeqFocus false
set_option linter.unreachableTactic false
set_option linter.unusedTactic false

namespace Fcc

/-- Symbol kinds (sym.h), restricted to the tags the analyzed code inspects. -/
inductive symTag where
  | symType
  | symStruct
  | symId
  | symParam
  | symEnumConstant
  deriving DecidableEq, Repr

/-- Classification bits carried on a basic type's symbol (`sym->typeMask`). -/
def typeNumeric : Nat := 1

def typeOrdinal : Nat := 2

def typeEquality : Nat := 4

def typeAssignment : Nat := 8

def typeCondition : Nat := 16

/-- The tagged `type` struct of type.c.  `typeBasic` carries the symbol id of
the referenced symbol (`DT->basic`, a `sym*`, compared by pointer identity). -/
inductive type where
  | typeBasic (basic : Nat)
  | typePtr (base : type)
  | typeArray (base : type) (array : Int)
  | typeFunction (returnType : type) (paramTypes : List type) (variadic : Bool)
  | typeInvalid
  deriving Repr

/-- The record behind a `sym*`: the fields the analyzed code reads.
`dt` is the symbol's declared type (may be the null pointer), `children`
are the child symbol ids in declaration order. -/
structure symData where
  tag : symTag
  ident : String
  typeMask : Nat
  size : Int
  dt : Option type
  children : List Nat

/-- The symbol table: resolves a symbol id (a `sym*`) to its record. -/
def symStore : Type := Nat → symData

/-! ### Type classification (type.c) -/

/-- `typeIsInvalid`: `DT->tag == typeInvalid`. -/
def typeIsInvalid : type → Bool
  | .typeInvalid => true
  | _ => false

/-- `typeIsBasic`: `DT->tag == typeBasic || typeIsInvalid(DT)`. -/
def typeIsBasic : type → Bool
  | .typeBasic _ => true
  | .typeInvalid => true
  | _ => false

/-- `typeIsPtr`: `DT->tag == typePtr || typeIsInvalid(DT)`. -/
def typeIsPtr : type → Bool
  | .typePtr _ => true
  | .typeInvalid => true
  | _ => false

/-- `typeIsArray`: `DT->tag == typeArray || typeIsInvalid(DT)`. -/
def typeIsArray : type → Bool
  | .typeArray _ _ => true
  | .typeInvalid => true
  | _ => false

/-- `typeIsFunction`: `DT->tag == typeFunction || typeIsInvalid(DT)`. -/
def typeIsFunction : type → Bool
  | .typeFunction _ _ _ => true
  | .typeInvalid => true
  | _ => false

/-- `typeGetSize`: 0 for Invalid, element count times element size for
arrays, the word size 8 for pointers and functions, the symbol's declared
size for basic types. -/
def typeGetSize (σ : symStore) : type → Int
  | .typeInvalid => 0
  | .typeArray b n => n * typeGetSize σ b
  | .typePtr _ => 8
  | .typeFunction _ _ _ => 8
  | .typeBasic s => (σ s).size

/-- `typeIsVoid`: a built in type (`symType`) of size zero, or Invalid. -/
def typeIsVoid (σ : symStore) (DT : type) : Bool :=
  (match DT with
   | .typeBasic s => (σ s).tag == .symType && typeGetSize σ (.typeBasic s) == 0
   | _ => false)
  || typeIsInvalid DT

/-- `typeIsRecord`: a basic type referencing a `symStruct`, or Invalid. -/
def typeIsRecord (σ : symStore) (DT : type) : Bool :=
  (match DT with
   | .typeBasic s => (σ s).tag == .symStruct
   | _ => false)
  || typeIsInvalid DT

/-- `typeIsCallable`: a function, a pointer whose base is a function, or
Invalid. -/
def typeIsCallable (DT : type) : Bool :=
  (typeIsFunction DT
   || (match DT with
       | .typePtr b => typeIsFunction b
       | _ => false))
  || typeIsInvalid DT

/-- `typeIsNumeric`: basic with the numeric bit, any pointer, or Invalid. -/
def typeIsNumeric (σ : symStore) (DT : type) : Bool :=
  (match DT with
   | .typeBasic s => ((σ s).typeMask &&& typeNumeric) != 0
   | _ => false)
  || typeIsPtr DT || typeIsInvalid DT

/-- `typeIsOrdinal`: basic with the ordinal bit, any pointer, or Invalid. -/
def typeIsOrdinal (σ : symStore) (DT : type) : Bool :=
  (match DT with
   | .typeBasic s => ((σ s).typeMask &&& typeOrdinal) != 0
   | _ => false)
  || typeIsPtr DT || typeIsInvalid DT

/-- `typeIsEquality`: basic with the equality bit, any pointer, or Invalid. -/
def typeIsEquality (σ : symStore) (DT : type) : Bool :=
  (match DT with
   | .typeBasic s => ((σ s).typeMask &&& typeEquality) != 0
   | _ => false)
  || typeIsPtr DT || typeIsInvalid DT

/-- `typeIsAssignment`: basic with the assignment bit, any pointer, or
Invalid. -/
def typeIsAssignment (σ : symStore) (DT : type) : Bool :=
  (match DT with
   | .typeBasic s => ((σ s).typeMask &&& typeAssignment) != 0
   | _ => false)
  || typeIsPtr DT || typeIsInvalid DT

/-- `typeIsCondition`: basic with the condition bit, any pointer, or
Invalid. -/
def typeIsCondition (σ : symStore) (DT : type) : Bool :=
  (match DT with
   | .typeBasic s => ((σ s).typeMask &&& typeCondition) != 0
   | _ => false)
  || typeIsPtr DT || typeIsInvalid DT

/-! ### Structural equality and deep duplication (type.c) -/

mutual

/-- `typeIsEqual`: Invalid equals everything; unequal tags are unequal;
pointers compare bases, arrays compare size and base, basics compare the
symbol pointer.  For two functions the C source returns
`typeIsCompatible(L, R)`, whose function branch (both sides being
functions) is: parameter counts match (`Model->params != DT->params`),
parameters pairwise `typeIsEqual`, and return types `typeIsEqual`; that
branch is written out here so the recursion stays within `typeIsEqual`. -/
def typeIsEqual (L R : type) : Bool :=
  if typeIsInvalid L || typeIsInvalid R then true
  else match L, R with
  | .typeBasic ls, .typeBasic rs => ls == rs
  | .typePtr lb, .typePtr rb => typeIsEqual lb rb
  | .typeArray lb la, .typeArray rb ra => la == ra && typeIsEqual lb rb
  | .typeFunction lret lps _, .typeFunction rret rps _ =>
      if rps.length != lps.length then false
      else typeIsEqualList lps rps && typeIsEqual lret rret
  | _, _ => false

/-- The parameter loop of the function branch: pairwise `typeIsEqual`.
The C loop runs for `Model->params` iterations, after the counts have been
checked equal, so a length mismatch is unreachable. -/
def typeIsEqualList : List type → List type → Bool
  | l :: ls, r :: rs => typeIsEqual l r && typeIsEqualList ls rs
  | _, _ => true

end

mutual

/-- `typeDeepDuplicate`: structural copy (fresh nodes sharing the same
symbol pointers). -/
def typeDeepDuplicate : type → type
  | .typeInvalid => .typeInvalid
  | .typeBasic s => .typeBasic s
  | .typePtr b => .typePtr (typeDeepDuplicate b)
  | .typeArray b n => .typeArray (typeDeepDuplicate b) n
  | .typeFunction r ps v => .typeFunction (typeDeepDuplicate r) (typeDeepDuplicateList ps) v

/-- The `paramTypes` copy loop of `typeDeepDuplicate`. -/
def typeDeepDuplicateList : List type → List type
  | [] => []
  | t :: ts => typeDeepDuplicate t :: typeDeepDuplicateList ts

end

/-! ### Compatibility (type.c) -/

/-- `typeIsCompatible(DT, Model)`.  Returns `none` where the C source
dereferences a null pointer: when the model is a zero-parameter function
and the actual is not a function, the actual's `params` field is `0`
(set by `typeCreate`), the arity test passes, and
`typeIsEqual(DT->returnType, Model->returnType)` is called on the
actual's `NULL` `returnType`. -/
def typeIsCompatible (σ : symStore) (DT Model : type) : Option Bool :=
  if typeIsInvalid DT || typeIsInvalid Model then some true
  else match Model with
  | .typeFunction mret mps _ =>
      match DT with
      | .typeFunction dret dps _ =>
          -- arity, pairwise parameter equality, return type equality
          if mps.length != dps.length then some false
          else some (typeIsEqualList dps mps && typeIsEqual dret mret)
      | _ =>
          -- non-function actual: `DT->params` is 0; if the model also has 0
          -- parameters the code dereferences `DT->returnType == NULL`
          if mps.length != 0 then some false else none
  | .typePtr mbase =>
      match DT with
      | .typePtr dbase =>
          if typeIsVoid σ mbase then some true
          else typeIsCompatible σ dbase mbase
      | .typeArray dbase _ =>
          if typeIsVoid σ mbase then some true
          else typeIsCompatible σ dbase mbase
      | .typeBasic s => some (((σ s).typeMask &&& typeNumeric) != 0)
      | .typeFunction _ _ _ => some false
      | .typeInvalid => some true
  | .typeArray mbase msize =>
      match DT with
      | .typeArray dbase dsize =>
          if dsize == msize || msize == -1 then typeIsCompatible σ dbase mbase
          else some false
      | .typeInvalid => some true
      | _ => some false
  | .typeBasic msym =>
      match DT with
      | .typePtr _ => some (((σ msym).typeMask &&& typeNumeric) != 0)
      | .typeBasic dsym => some (dsym == msym)
      | .typeArray _ _ => some false
      | .typeFunction _ _ _ => some false
      | .typeInvalid => some true
  | .typeInvalid => some true

/-! ### Type derivation (type.c) -/

/-- `typeDeriveFrom`: a fresh duplicate of the operand's type. -/
def typeDeriveFrom (DT : type) : type :=
  typeDeepDuplicate DT

/-- `typeDeriveFromTwo`: Invalid if either side is, else a duplicate of `L`
(the `debugAssert` on compatibility is a diagnostic no-op). -/
def typeDeriveFromTwo (L R : type) : type :=
  if typeIsInvalid L || typeIsInvalid R then .typeInvalid
  else typeDeriveFrom L

/-- `typeDeriveUnified`: Invalid if either side is; a duplicate of `L` when
the two are equal, else `typeDeriveFromTwo`. -/
def typeDeriveUnified (L R : type) : type :=
  if typeIsInvalid L || typeIsInvalid R then .typeInvalid
  else if typeIsEqual L R then typeDeepDuplicate L
  else typeDeriveFromTwo L R

/-- `typeDeriveBase`: Invalid for Invalid, else a duplicate of the base.
The `debugAssert` requires a pointer or array; on any other tag the C would
duplicate a null base (the analyzer only calls this behind
`typeIsPtr`/`typeIsArray` guards, so that path is unreachable and is
rendered as Invalid). -/
def typeDeriveBase : type → type
  | .typeInvalid => .typeInvalid
  | .typePtr b => typeDeepDuplicate b
  | .typeArray b _ => typeDeepDuplicate b
  | _ => .typeInvalid

/-- `typeDerivePtr`: pointer to a duplicate of the base.  Note: unlike the
other derivations there is no Invalid short-circuit in the source. -/
def typeDerivePtr (base : type) : type :=
  .typePtr (typeDeepDuplicate base)

/-- `typeDeriveArray`: array of a duplicate of the base. -/
def typeDeriveArray (base : type) (size : Int) : type :=
  .typeArray (typeDeepDuplicate base) size

/-- `typeDeriveReturn`: Invalid for Invalid; recurses through a pointer;
duplicates a function's return type.  The `debugAssert` requires a callable;
on a basic or array tag the C would duplicate a null `returnType` (only
reachable past a failed assertion; rendered as Invalid). -/
def typeDeriveReturn : type → type
  | .typeInvalid => .typeInvalid
  | .typePtr b => typeDeriveReturn b
  | .typeFunction r _ _ => typeDeepDuplicate r
  | _ => .typeInvalid

/-! ### AST, diagnostics, analyzer context (analyzer-value.c, ast.h, error.c) -/

/-- Literal classes (`Node->litTag`). -/
inductive literalTag where
  | literalInt
  | literalChar
  | literalBool
  | literalStr
  | literalIdent
  | literalInit
  | literalCompound
  deriving DecidableEq, Repr

mutual

/-- An AST node: its shape (`core`), its `symbol` field (null for most
nodes; pre-resolved for identifier literals, written by member access and
carried by compound literals), and its `dt` field (null until the analyzer
writes the derived type). -/
inductive ast where
  | mk (core : astCore) (symbol : Option Nat) (dt : Option type)

/-- Node shapes as the analyzer dispatches on them.  `l`/`r`/`firstChild`
positional children become constructor fields; the `firstChild` sibling
list becomes `children`.  `astType` is a type-expression node; the type it
denotes (resolved by the external type analyzer) is stored inline.
`astOther` stands for the remaining AST tags, which `analyzerValue` does
not handle. -/
inductive astCore where
  | astBOP (o : String) (l r : ast)
  | astUOP (o : String) (r : ast)
  | astTOP (firstChild l r : ast)
  | astIndex (l r : ast)
  | astCall (l : ast) (children : List ast)
  | astCast (l r : ast)
  | astSizeof (r : ast)
  | astType (denoted : type)
  | astLiteralNode (litTag : literalTag) (literal : String) (l : Option ast) (children : List ast)
  | astInvalid
  | astOther (tag : String)

end

/-- `Node->core`. -/
def ast.core : ast → astCore
  | .mk c _ _ => c

/-- `Node->symbol`. -/
def ast.symbol : ast → Option Nat
  | .mk _ s _ => s

/-- `Node->dt`. -/
def ast.dt : ast → Option type
  | .mk _ _ d => d

/-- `Node->literal`, read as a field-name string (member access reads
`(char*) Node->r->literal`); null for nodes without one. -/
def ast.literal : ast → String
  | .mk (.astLiteralNode _ s _ _) _ _ => s
  | _ => ""

/-- The `firstChild`/`nextSibling` list of a node (`Node->children` is its
length). -/
def astCoreChildren : astCore → List ast
  | .astLiteralNode _ _ _ cs => cs
  | .astCall _ cs => cs
  | _ => []

/-- Diagnostics, one constructor per reporting primitive of the sink,
carrying the payload the analyzer passes (node locations are dropped). -/
inductive diag where
  | errorTypeExpected (o : String) (expected : String)
  | errorLvalue (o : String)
  | errorMismatch (o : String)
  | errorDegree (what : String) (expected : Int) (found : Int) (name : String)
  | errorParamMismatch (n : Nat)
  | errorNamedParamMismatch (n : Nat) (fnIdent : String)
  | errorMember (o : String) (field : String)
  | errorIllegalSymAsValue (ident : String)
  | errorInitFieldMismatch (fieldIdent : String)
  | errorTypeExpectedType (site : String)
  deriving DecidableEq, Repr

/-- The builtin-types table index (`ctx->types[...]`). -/
inductive builtin where
  | builtinVoid
  | builtinBool
  | builtinChar
  | builtinInt
  deriving DecidableEq, Repr

/-- The analyzer context: the symbol store and the builtin-types table
(symbol ids of the builtin type symbols). -/
structure analyzerCtx where
  syms : symStore
  types : builtin → Nat

/-- `valueResult`: the derived type and the l-value flag. -/
structure valueResult where
  dt : type
  lvalue : Bool
  deriving Repr

/-! ### Operator classification (analyzer-value.c) -/

/-- `isNumericBOP`: operators acting only on numeric types. -/
def isNumericBOP (o : String) : Bool :=
  o == "+" || o == "-" || o == "*" || o == "/" || o == "%"
  || o == "&" || o == "|" || o == "^" || o == "<<" || o == ">>"
  || o == "+=" || o == "-=" || o == "*=" || o == "/=" || o == "%="
  || o == "&=" || o == "|=" || o == "^=" || o == "<<=" || o == ">>="

/-- `isOrdinalBOP`. -/
def isOrdinalBOP (o : String) : Bool :=
  o == ">" || o == "<" || o == ">=" || o == "<="

/-- `isEqualityBOP`. -/
def isEqualityBOP (o : String) : Bool :=
  o == "==" || o == "!="

/-- `isAssignmentBOP`. -/
def isAssignmentBOP (o : String) : Bool :=
  o == "="
  || o == "+=" || o == "-=" || o == "*=" || o == "/=" || o == "%="
  || o == "&=" || o == "|=" || o == "^=" || o == "<<=" || o == ">>="

/-- `isLogicalBOP`. -/
def isLogicalBOP (o : String) : Bool :=
  o == "&&" || o == "||"

/-- `isMemberBOP`. -/
def isMemberBOP (o : String) : Bool :=
  o == "." || o == "->"

/-- `isDerefBOP`. -/
def isDerefBOP (o : String) : Bool :=
  o == "->"

/-- `isCommaBOP`. -/
def isCommaBOP (o : String) : Bool :=
  o == ","

/-! ### External collaborators (not in the analyzed sources) -/

/-- Modelled from the spec: the type analyzer collaborator ("a function
that, given a type-expression AST, returns a `Type`", invoked from Cast,
Sizeof and Compound-literal).  The embedding stores the denoted type on the
`astType` node and the collaborator reads it back. -/
def analyzerType (_ctx : analyzerCtx) (n : ast) : type :=
  match n.core with
  | .astType t => t
  | _ => .typeInvalid

/-- Modelled from the spec: the symbol-table accessor
`child(record, name) -> Symbol?`, searching the record's ordered children
for the first one with the given identifier. -/
def symChild (σ : symStore) (record : Nat) (name : String) : Option Nat :=
  (σ record).children.find? (fun c => (σ c).ident == name)

/-- Modelled from the spec: `typeGetRecordSym` (declared in type.h, defined
outside the analyzed sources).  Member access calls it after accepting both
a direct record and a pointer-to-record and looks the member up in the
returned record symbol in both cases ("look up the named child in the
record symbol's ordered children"), so it resolves a `Basic` referencing a
`Struct` symbol directly and a pointer to such a `Basic` through one level
of indirection; anything else has no record symbol. -/
def typeGetRecordSym (σ : symStore) : type → Option Nat
  | .typeBasic s => if (σ s).tag == .symStruct then some s else none
  | .typePtr (.typeBasic s) => if (σ s).tag == .symStruct then some s else none
  | _ => none

/-- `Node->children`: the `firstChild` sibling list of a node. -/
def ast.children (n : ast) : List ast :=
  astCoreChildren n.core

/-- `Node->tag == astType`. -/
def ast.isAstType : ast → Bool
  | .mk (.astType _) _ _ => true
  | _ => false

/-- `Node->tag == astLiteral && Node->litTag == literalInit`. -/
def ast.isInitLiteral : ast → Bool
  | .mk (.astLiteralNode .literalInit _ _ _) _ _ => true
  | _ => false

/-! ### The expression and initializer analyzer (analyzer-value.c)

`analyzerValue` computes each node's derived type and value category in one
post-order pass, returning the mutated node, the `valueResult`, and the
diagnostics emitted, in emission order.  `none` models a crash
(null-pointer dereference) in the C source.

The C handler functions (`analyzerBOP`, `analyzerCall`, ..., each called
exactly once, from the dispatcher) are inlined at their dispatch sites, and
the body of `analyzerInitOrCompoundLiteral` is additionally inlined at the
compound-literal branch (where C calls it on the node being analyzed), so
that the recursion is structural; each inlined handler is marked with the C
function's name. -/

mutual

/-- `analyzerValue`: route by AST tag and operator class.  `astInvalid`,
unknown operator spellings and unhandled tags produce an Invalid-typed
result that is flagged as an l-value. -/
def analyzerValue (ctx : analyzerCtx) (Node : ast) : Option (ast × valueResult × List diag) :=
  match Node with
  | .mk core symbol _dt0 =>
    match core with
    | .astBOP o l r =>
      if isNumericBOP o || isAssignmentBOP o then
        -- analyzerBOP: numeric/assignment operators; class checks first
        -- (numeric operands for numeric operators; assignable operands and
        -- an l-value left side for assignments), then the result is derived
        -- from the two operand types if compatible, else a mismatch
        -- diagnostic and Invalid.  Never an l-value.
        match analyzerValue ctx l with
        | none => none
        | some (l1, L, dl) =>
          match analyzerValue ctx r with
          | none => none
          | some (r1, R, dr) =>
            let d1 := if isNumericBOP o
                         && (!typeIsNumeric ctx.syms L.dt || !typeIsNumeric ctx.syms R.dt)
                      then [diag.errorTypeExpected o "numeric type"] else []
            let d2 := if isAssignmentBOP o
                         && (!typeIsAssignment ctx.syms L.dt || !typeIsAssignment ctx.syms R.dt)
                      then [diag.errorTypeExpected o "assignable type"] else []
            let d3 := if isAssignmentBOP o && !L.lvalue then [diag.errorLvalue o] else []
            match typeIsCompatible ctx.syms L.dt R.dt with
            | none => none
            | some c =>
              if c then
                let ndt := typeDeriveFromTwo L.dt R.dt
                some (.mk (.astBOP o l1 r1) symbol (some ndt), ⟨ndt, false⟩,
                      dl ++ dr ++ d1 ++ d2 ++ d3)
              else
                some (.mk (.astBOP o l1 r1) symbol (some .typeInvalid), ⟨.typeInvalid, false⟩,
                      dl ++ dr ++ d1 ++ d2 ++ d3 ++ [diag.errorMismatch o])
      else if isOrdinalBOP o || isEqualityBOP o then
        -- analyzerComparisonBOP: operands must be ordinal
        -- (resp. equality-comparable) and mutually compatible; the result is
        -- bool, never an l-value.
        match analyzerValue ctx l with
        | none => none
        | some (l1, L, dl) =>
          match analyzerValue ctx r with
          | none => none
          | some (r1, R, dr) =>
            let d1 := if isOrdinalBOP o then
                        if !typeIsOrdinal ctx.syms L.dt || !typeIsOrdinal ctx.syms R.dt
                        then [diag.errorTypeExpected o "comparable type"] else []
                      else
                        if !typeIsEquality ctx.syms L.dt || !typeIsEquality ctx.syms R.dt
                        then [diag.errorTypeExpected o "comparable type"] else []
            match typeIsCompatible ctx.syms L.dt R.dt with
            | none => none
            | some c =>
              let d2 := if !c then [diag.errorMismatch o] else []
              let ndt := type.typeBasic (ctx.types .builtinBool)
              some (.mk (.astBOP o l1 r1) symbol (some ndt), ⟨ndt, false⟩,
                    dl ++ dr ++ d1 ++ d2)
      else if isLogicalBOP o then
        -- analyzerLogicalBOP: both operands must be conditions; the result
        -- is bool, never an l-value.
        match analyzerValue ctx l with
        | none => none
        | some (l1, L, dl) =>
          match analyzerValue ctx r with
          | none => none
          | some (r1, R, dr) =>
            let d1 := if !typeIsCondition ctx.syms L.dt || !typeIsCondition ctx.syms R.dt
                      then [diag.errorTypeExpected o "condition"] else []
            let ndt := type.typeBasic (ctx.types .builtinBool)
            some (.mk (.astBOP o l1 r1) symbol (some ndt), ⟨ndt, false⟩, dl ++ dr ++ d1)
      else if isMemberBOP o then
        -- analyzerMemberBOP: only the left side is analyzed (the right
        -- child carries the field name).  The shape check accepts a record
        -- or a pointer-to-record for either operator ("irrespective of
        -- which we actually need"); a separate indirection check then warns
        -- without aborting, and the member is looked up through
        -- typeGetRecordSym regardless.  `->` always yields an l-value, `.`
        -- passes the operand's l-valueness through.
        match analyzerValue ctx l with
        | none => none
        | some (l1, L, dl) =>
          let lv := if isDerefBOP o then true else L.lvalue
          if !(typeIsRecord ctx.syms L.dt
               || (match L.dt with
                   | .typePtr b => typeIsRecord ctx.syms b
                   | _ => false)) then
            some (.mk (.astBOP o l1 r) symbol (some .typeInvalid), ⟨.typeInvalid, lv⟩,
                  dl ++ [diag.errorTypeExpected o
                           (if isDerefBOP o then "structure or union pointer"
                            else "structure or union type")])
          else
            let dIndir := if isDerefBOP o then
                            if !typeIsPtr L.dt then [diag.errorTypeExpected o "pointer"] else []
                          else
                            if typeIsPtr L.dt
                            then [diag.errorTypeExpected o "direct structure or union"] else []
            match typeGetRecordSym ctx.syms L.dt with
            | some recordSym =>
              match symChild ctx.syms recordSym r.literal with
              | some fieldSym =>
                match (ctx.syms fieldSym).dt with
                | none => none
                | some fdt =>
                  let ndt := typeDeepDuplicate fdt
                  some (.mk (.astBOP o l1 r) (some fieldSym) (some ndt), ⟨ndt, lv⟩, dl ++ dIndir)
              | none =>
                some (.mk (.astBOP o l1 r) none (some .typeInvalid), ⟨.typeInvalid, lv⟩,
                      dl ++ dIndir ++ [diag.errorMember o r.literal])
            | none =>
              some (.mk (.astBOP o l1 r) symbol (some .typeInvalid), ⟨.typeInvalid, lv⟩,
                    dl ++ dIndir)
      else if isCommaBOP o then
        -- analyzerCommaBOP: analyze both sides, duplicate the right side's
        -- type and pass its l-valueness through.
        match analyzerValue ctx l with
        | none => none
        | some (l1, _L, dl) =>
          match analyzerValue ctx r with
          | none => none
          | some (r1, R, dr) =>
            let ndt := typeDeepDuplicate R.dt
            some (.mk (.astBOP o l1 r1) symbol (some ndt), ⟨ndt, R.lvalue⟩, dl ++ dr)
      else
        -- unhandled operator spelling (debugErrorUnhandled, not a sink entry)
        some (.mk (.astBOP o l r) symbol (some .typeInvalid), ⟨.typeInvalid, true⟩, [])
    | .astUOP o r =>
      -- analyzerUOP: + - ++ -- ~ need a numeric operand (++/-- also an
      -- l-value), ! a condition, * a pointer (and produces the only l-value
      -- result), & an l-value operand; anything else is unhandled.  The
      -- result is an l-value iff the operator is *.
      match analyzerValue ctx r with
      | none => none
      | some (r1, R, dr) =>
        let lv := o == "*"
        if o == "+" || o == "-" || o == "++" || o == "--" || o == "~" then
          if !typeIsNumeric ctx.syms R.dt then
            some (.mk (.astUOP o r1) symbol (some .typeInvalid), ⟨.typeInvalid, lv⟩,
                  dr ++ [diag.errorTypeExpected o "numeric type"])
          else
            let d := if (o == "++" || o == "--") && !R.lvalue then [diag.errorLvalue o] else []
            let ndt := typeDeriveFrom R.dt
            some (.mk (.astUOP o r1) symbol (some ndt), ⟨ndt, lv⟩, dr ++ d)
        else if o == "!" then
          let d := if !typeIsCondition ctx.syms R.dt
                   then [diag.errorTypeExpected o "condition"] else []
          let ndt := type.typeBasic (ctx.types .builtinBool)
          some (.mk (.astUOP o r1) symbol (some ndt), ⟨ndt, lv⟩, dr ++ d)
        else if o == "*" then
          if typeIsPtr R.dt then
            let ndt := typeDeriveBase R.dt
            some (.mk (.astUOP o r1) symbol (some ndt), ⟨ndt, lv⟩, dr)
          else
            some (.mk (.astUOP o r1) symbol (some .typeInvalid), ⟨.typeInvalid, lv⟩,
                  dr ++ [diag.errorTypeExpected o "pointer"])
        else if o == "&" then
          let d := if !R.lvalue then [diag.errorLvalue o] else []
          let ndt := typeDerivePtr R.dt
          some (.mk (.astUOP o r1) symbol (some ndt), ⟨ndt, lv⟩, dr ++ d)
        else
          -- unhandled operator (debugErrorUnhandled)
          some (.mk (.astUOP o r1) symbol (some .typeInvalid), ⟨.typeInvalid, lv⟩, dr)
    | .astTOP cond l r =>
      -- analyzerTernary: condition first child, then both arms; compatible
      -- arms unify, incompatible arms give a mismatch and Invalid; an
      -- l-value iff both arms are.
      match analyzerValue ctx cond with
      | none => none
      | some (c1, Cond, dc) =>
        match analyzerValue ctx l with
        | none => none
        | some (l1, L, dl) =>
          match analyzerValue ctx r with
          | none => none
          | some (r1, R, dr) =>
            let d1 := if !typeIsCondition ctx.syms Cond.dt
                      then [diag.errorTypeExpected "ternary ?:" "condition value"] else []
            match typeIsCompatible ctx.syms L.dt R.dt with
            | none => none
            | some c =>
              if c then
                let ndt := typeDeriveUnified L.dt R.dt
                some (.mk (.astTOP c1 l1 r1) symbol (some ndt), ⟨ndt, L.lvalue && R.lvalue⟩,
                      dc ++ dl ++ dr ++ d1)
              else
                some (.mk (.astTOP c1 l1 r1) symbol (some .typeInvalid),
                      ⟨.typeInvalid, L.lvalue && R.lvalue⟩,
                      dc ++ dl ++ dr ++ d1 ++ [diag.errorMismatch "ternary ?:"])
    | .astIndex l r =>
      -- analyzerIndex: the index must be numeric and the indexed side an
      -- array or pointer (else Invalid); the indexed side's l-valueness is
      -- inherited.
      match analyzerValue ctx l with
      | none => none
      | some (l1, L, dl) =>
        match analyzerValue ctx r with
        | none => none
        | some (r1, R, dr) =>
          let d1 := if !typeIsNumeric ctx.syms R.dt
                    then [diag.errorTypeExpected "[]" "numeric index"] else []
          if typeIsArray L.dt || typeIsPtr L.dt then
            let ndt := typeDeriveBase L.dt
            some (.mk (.astIndex l1 r1) symbol (some ndt), ⟨ndt, L.lvalue⟩, dl ++ dr ++ d1)
          else
            some (.mk (.astIndex l1 r1) symbol (some .typeInvalid), ⟨.typeInvalid, L.lvalue⟩,
                  dl ++ dr ++ d1 ++ [diag.errorTypeExpected "[]" "array or pointer"])
    | .astCall l args =>
      -- analyzerCall: the callee must be callable (an Invalid callee is
      -- silently Invalid); the return type is derived regardless of
      -- argument errors; a non-variadic arity mismatch (or too few
      -- arguments for a variadic callee) emits one degree diagnostic and
      -- skips the argument walk entirely; otherwise the arguments are
      -- walked against the parameter types.  Never an l-value.
      match analyzerValue ctx l with
      | none => none
      | some (l1, L, dl) =>
        if !typeIsCallable L.dt then
          some (.mk (.astCall l1 args) symbol (some .typeInvalid), ⟨.typeInvalid, false⟩,
                dl ++ [diag.errorTypeExpected "()" "function"])
        else if typeIsInvalid L.dt then
          some (.mk (.astCall l1 args) symbol (some .typeInvalid), ⟨.typeInvalid, false⟩, dl)
        else
          let ndt := typeDeriveReturn L.dt
          let fn := match L.dt with
                    | .typePtr b => b
                    | _ => L.dt
          let fnParams := match fn with
                          | .typeFunction _ ps _ => ps
                          | _ => []
          let fnVariadic := match fn with
                            | .typeFunction _ _ v => v
                            | _ => false
          if (if fnVariadic then decide (fnParams.length > args.length)
              else fnParams.length != args.length) then
            let calleeName := match l1.symbol with
                              | some s => (ctx.syms s).ident
                              | none => "function"
            some (.mk (.astCall l1 args) symbol (some ndt), ⟨ndt, false⟩,
                  dl ++ [diag.errorDegree "parameter(s)" (fnParams.length : Int)
                           (args.length : Int) calleeName])
          else
            match analyzerCallArgs ctx args fnParams l1.symbol 0 with
            | none => none
            | some (args1, da) =>
              some (.mk (.astCall l1 args1) symbol (some ndt), ⟨ndt, false⟩, dl ++ da)
    | .astCast l r =>
      -- analyzerCast: the target type is resolved by the external type
      -- analyzer and duplicated as the result; validity of the cast is not
      -- verified (TODO in the source); the operand's l-valueness passes
      -- through.
      let L := analyzerType ctx l
      match analyzerValue ctx r with
      | none => none
      | some (r1, R, dr) =>
        let ndt := typeDeepDuplicate L
        some (.mk (.astCast l r1) symbol (some ndt), ⟨ndt, R.lvalue⟩, dr)
    | .astSizeof r =>
      -- analyzerSizeof: a type operand goes to the external type analyzer,
      -- a value operand is analyzed; the result is int, never an l-value.
      if r.isAstType then
        let ndt := type.typeBasic (ctx.types .builtinInt)
        some (.mk (.astSizeof r) symbol (some ndt), ⟨ndt, false⟩, [])
      else
        match analyzerValue ctx r with
        | none => none
        | some (r1, _R, dr) =>
          let ndt := type.typeBasic (ctx.types .builtinInt)
          some (.mk (.astSizeof r1) symbol (some ndt), ⟨ndt, false⟩, dr)
    | .astLiteralNode ltag lit lopt cs =>
      if ltag == .literalCompound then
        -- analyzerCompoundLiteral: resolve the target type from the type
        -- child and run analyzerInitOrCompoundLiteral on this very node
        -- (inlined below); then store a duplicate of the result on the
        -- owning symbol (the store is not observed here; a missing owning
        -- symbol is the crash it would be in C).  Compound literals are
        -- l-values.
        match lopt with
        | none => none
        | some lnode =>
          let LT := analyzerType ctx lnode
          -- inline of analyzerInitOrCompoundLiteral(ctx, Node, LT)
          let ndt := typeDeepDuplicate LT
          let initRes : Option (List ast × List diag) :=
            if typeIsInvalid LT then some (cs, [])
            else match LT with
            | .typeBasic s =>
              if (ctx.syms s).tag == .symStruct then
                if (ctx.syms s).children.length != cs.length then
                  some (cs, [diag.errorDegree "fields" ((ctx.syms s).children.length : Int)
                               (cs.length : Int) ((ctx.syms s).ident)])
                else analyzerInitStructFields ctx cs (ctx.syms s).children
              else
                -- scalar
                if cs.length != 1 then
                  some (cs, [diag.errorDegree "element" 1 (cs.length : Int) "scalar"])
                else analyzerInitScalar ctx cs LT
            | .typeArray b sz =>
              let d0 := if sz != -1 && sz < (cs.length : Int)
                        then [diag.errorDegree "elements" sz (cs.length : Int) "array"] else []
              match analyzerInitArrayElements ctx cs b with
              | none => none
              | some (cs1, d) => some (cs1, d0 ++ d)
            | _ =>
              -- scalar
              if cs.length != 1 then
                some (cs, [diag.errorDegree "element" 1 (cs.length : Int) "scalar"])
              else analyzerInitScalar ctx cs LT
          match initRes with
          | none => none
          | some (cs1, d) =>
            match symbol with
            | none => none
            | some _ =>
              some (.mk (.astLiteralNode ltag lit (some lnode) cs1) symbol (some ndt),
                    ⟨ndt, true⟩, d)
      else
        -- analyzerLiteral: int/char/bool literals take the builtin type, a
        -- string is char*, an identifier duplicates the referenced symbol's
        -- declared type provided the symbol is an enum constant, variable
        -- or parameter (anything else is an illegal symbol in value
        -- position).  Only identifier literals are l-values.
        let lv := ltag == literalTag.literalIdent
        if ltag == .literalInt then
          let ndt := type.typeBasic (ctx.types .builtinInt)
          some (.mk (.astLiteralNode ltag lit lopt cs) symbol (some ndt), ⟨ndt, lv⟩, [])
        else if ltag == .literalChar then
          let ndt := type.typeBasic (ctx.types .builtinChar)
          some (.mk (.astLiteralNode ltag lit lopt cs) symbol (some ndt), ⟨ndt, lv⟩, [])
        else if ltag == .literalBool then
          let ndt := type.typeBasic (ctx.types .builtinBool)
          some (.mk (.astLiteralNode ltag lit lopt cs) symbol (some ndt), ⟨ndt, lv⟩, [])
        else if ltag == .literalStr then
          let ndt := type.typePtr (.typeBasic (ctx.types .builtinChar))
          some (.mk (.astLiteralNode ltag lit lopt cs) symbol (some ndt), ⟨ndt, lv⟩, [])
        else if ltag == .literalIdent then
          match symbol with
          | none => none
          | some s =>
            if (ctx.syms s).tag == .symEnumConstant || (ctx.syms s).tag == .symId
               || (ctx.syms s).tag == .symParam then
              match (ctx.syms s).dt with
              | some sdt =>
                let ndt := typeDeepDuplicate sdt
                some (.mk (.astLiteralNode ltag lit lopt cs) symbol (some ndt), ⟨ndt, lv⟩, [])
              | none =>
                -- symbol referenced without a type (debugError, no sink entry)
                some (.mk (.astLiteralNode ltag lit lopt cs) symbol (some .typeInvalid),
                      ⟨.typeInvalid, lv⟩, [])
            else
              some (.mk (.astLiteralNode ltag lit lopt cs) symbol (some .typeInvalid),
                    ⟨.typeInvalid, lv⟩,
                    [diag.errorIllegalSymAsValue ((ctx.syms s).ident)])
        else
          -- unhandled literal tag (debugErrorUnhandled)
          some (.mk (.astLiteralNode ltag lit lopt cs) symbol (some .typeInvalid),
                ⟨.typeInvalid, lv⟩, [])
    | .astInvalid =>
      -- debugMsg("Invalid")
      some (.mk .astInvalid symbol (some .typeInvalid), ⟨.typeInvalid, true⟩, [])
    | .astType t =>
      -- unhandled AST tag in value position (debugErrorUnhandled)
      some (.mk (.astType t) symbol (some .typeInvalid), ⟨.typeInvalid, true⟩, [])
    | .astOther tg =>
      -- unhandled AST tag in value position (debugErrorUnhandled)
      some (.mk (.astOther tg) symbol (some .typeInvalid), ⟨.typeInvalid, true⟩, [])

/-- `analyzerInitOrCompoundLiteral`: set the node's type to a duplicate of
the expected type, then dispatch on the expected type: Invalid is silent;
a struct pairs children with fields after an arity check that, on failure,
skips the children entirely; an array checks every element (tolerating too
few, and every element keeps being checked after the degree diagnostic);
anything else is a scalar expecting exactly one element.  Initializer
results are never l-values.  Nodes of shapes other than a literal carry no
child list (`Node->children` is 0). -/
def analyzerInitOrCompoundLiteral (ctx : analyzerCtx) (Node : ast) (DT : type) :
    Option (ast × valueResult × List diag) :=
  match Node with
  | .mk (.astLiteralNode lt li lo cs) sym _d0 =>
    let ndt := typeDeepDuplicate DT
    let initRes : Option (List ast × List diag) :=
      if typeIsInvalid DT then some (cs, [])
      else match DT with
      | .typeBasic s =>
        if (ctx.syms s).tag == .symStruct then
          if (ctx.syms s).children.length != cs.length then
            some (cs, [diag.errorDegree "fields" ((ctx.syms s).children.length : Int)
                         (cs.length : Int) ((ctx.syms s).ident)])
          else analyzerInitStructFields ctx cs (ctx.syms s).children
        else
          -- scalar
          if cs.length != 1 then
            some (cs, [diag.errorDegree "element" 1 (cs.length : Int) "scalar"])
          else analyzerInitScalar ctx cs DT
      | .typeArray b sz =>
        let d0 := if sz != -1 && sz < (cs.length : Int)
                  then [diag.errorDegree "elements" sz (cs.length : Int) "array"] else []
        match analyzerInitArrayElements ctx cs b with
        | none => none
        | some (cs1, d) => some (cs1, d0 ++ d)
      | _ =>
        -- scalar
        if cs.length != 1 then
          some (cs, [diag.errorDegree "element" 1 (cs.length : Int) "scalar"])
        else analyzerInitScalar ctx cs DT
    match initRes with
    | none => none
    | some (cs1, d) =>
      some (.mk (.astLiteralNode lt li lo cs1) sym (some ndt), ⟨ndt, false⟩, d)
  | .mk c sym _d0 =>
    -- a node without a child list: zero children, so the struct branch
    -- fails its arity check unless the struct has no fields, the array
    -- branch checks nothing, and the scalar branch fails its arity check
    let ndt := typeDeepDuplicate DT
    let d : List diag :=
      if typeIsInvalid DT then []
      else match DT with
      | .typeBasic s =>
        if (ctx.syms s).tag == .symStruct then
          if (ctx.syms s).children.length != 0 then
            [diag.errorDegree "fields" ((ctx.syms s).children.length : Int) 0
               ((ctx.syms s).ident)]
          else []
        else [diag.errorDegree "element" 1 0 "scalar"]
      | .typeArray _ sz =>
        if sz != -1 && sz < 0 then [diag.errorDegree "elements" sz 0 "array"] else []
      | _ => [diag.errorDegree "element" 1 0 "scalar"]
    some (.mk c sym (some ndt), ⟨ndt, false⟩, d)

/-- The argument loop of `analyzerCall`: while parameter types remain, each
argument is analyzed and checked compatible against its parameter type
(`n` is the 0-based parameter index carried into the diagnostics);
arguments beyond the prototype (the variadic tail) are analyzed only. -/
def analyzerCallArgs (ctx : analyzerCtx) (args : List ast) (paramTypes : List type)
    (calleeSym : Option Nat) (n : Nat) : Option (List ast × List diag) :=
  match args, paramTypes with
  | [], _ => some ([], [])
  | a :: rest, pt :: pts =>
    match analyzerValue ctx a with
    | none => none
    | some (a1, P, da) =>
      match typeIsCompatible ctx.syms P.dt pt with
      | none => none
      | some c =>
        let dmis := if !c then
                      [match calleeSym with
                       | some s => diag.errorNamedParamMismatch n ((ctx.syms s).ident)
                       | none => diag.errorParamMismatch n]
                    else []
        match analyzerCallArgs ctx rest pts calleeSym (n + 1) with
        | none => none
        | some (rest1, drest) => some (a1 :: rest1, da ++ dmis ++ drest)
  | a :: rest, [] =>
    match analyzerValue ctx a with
    | none => none
    | some (a1, _P, da) =>
      match analyzerCallArgs ctx rest [] calleeSym (n + 1) with
      | none => none
      | some (rest1, drest) => some (a1 :: rest1, da ++ drest)

/-- The struct branch's loop: pair each child with each field in
declaration order; a brace-initializer child recurses with the field's
type, any other child is value-analyzed; afterwards the child's stored
type is checked compatible with the field's type. -/
def analyzerInitStructFields (ctx : analyzerCtx) (elems : List ast) (fields : List Nat) :
    Option (List ast × List diag) :=
  match elems, fields with
  | e :: es, f :: fs =>
    let step : Option (ast × valueResult × List diag) :=
      if e.isInitLiteral then
        match (ctx.syms f).dt with
        | none => none
        | some fdt => analyzerInitOrCompoundLiteral ctx e fdt
      else analyzerValue ctx e
    match step with
    | none => none
    | some (e1, _res, d) =>
      match e1.dt, (ctx.syms f).dt with
      | some edt, some fdt2 =>
        match typeIsCompatible ctx.syms edt fdt2 with
        | none => none
        | some c =>
          let dmis := if !c then [diag.errorInitFieldMismatch ((ctx.syms f).ident)] else []
          match analyzerInitStructFields ctx es fs with
          | none => none
          | some (es1, drest) => some (e1 :: es1, d ++ dmis ++ drest)
      | _, _ => none
  | es, _ => some (es, [])

/-- The array branch's loop: every element is analyzed (brace initializers
recurse with the element type) and checked compatible with the element
type, one diagnostic per bad element. -/
def analyzerInitArrayElements (ctx : analyzerCtx) (elems : List ast) (base : type) :
    Option (List ast × List diag) :=
  match elems with
  | [] => some ([], [])
  | e :: es =>
    let step : Option (ast × valueResult × List diag) :=
      if e.isInitLiteral then analyzerInitOrCompoundLiteral ctx e base
      else analyzerValue ctx e
    match step with
    | none => none
    | some (e1, cur, d) =>
      match typeIsCompatible ctx.syms cur.dt base with
      | none => none
      | some c =>
        let dmis := if !c then [diag.errorTypeExpectedType "array initialization"] else []
        match analyzerInitArrayElements ctx es base with
        | none => none
        | some (es1, drest) => some (e1 :: es1, d ++ dmis ++ drest)

/-- The scalar branch's body, after the single-element arity check: analyze
the element and check it compatible with the expected type. -/
def analyzerInitScalar (ctx : analyzerCtx) (elems : List ast) (DT : type) :
    Option (List ast × List diag) :=
  match elems with
  | [e] =>
    match analyzerValue ctx e with
    | none => none
    | some (e1, R, d) =>
      match typeIsCompatible ctx.syms R.dt DT with
      | none => none
      | some c =>
        some ([e1], d ++ (if !c then [diag.errorTypeExpectedType "variable initialization"] else []))
  | _ => some (elems, [])

end

/-! ### A sample symbol table and AST nodes

A small translation unit used by the concrete witnesses below:
builtin types `int`/`bool`/`char`/`void`, a struct `S` with fields
`x y : int`, variables `x : int` and `p : S*`, a function
`f : int(int)`, and an anonymous compound-literal symbol. -/

/-- Symbol ids 0..9 of the sample translation unit. -/
def egSyms : symStore := fun i =>
  match i with
  | 0 => ⟨.symType, "int", 31, 4, none, []⟩
  | 1 => ⟨.symType, "bool", 28, 1, none, []⟩
  | 2 => ⟨.symType, "char", 31, 1, none, []⟩
  | 3 => ⟨.symStruct, "S", 0, 8, none, [4, 9]⟩
  | 4 => ⟨.symId, "x", 0, 4, some (.typeBasic 0), []⟩
  | 5 => ⟨.symId, "p", 0, 8, some (.typePtr (.typeBasic 3)), []⟩
  | 6 => ⟨.symId, "f", 0, 8, some (.typeFunction (.typeBasic 0) [.typeBasic 0] false), []⟩
  | 7 => ⟨.symType, "void", 0, 0, none, []⟩
  | 8 => ⟨.symId, "anon", 0, 0, none, []⟩
  | 9 => ⟨.symId, "y", 0, 4, some (.typeBasic 0), []⟩
  | _ => ⟨.symId, "", 0, 0, none, []⟩

/-- The sample analyzer context over `egSyms`. -/
def egCtx : analyzerCtx :=
  ⟨egSyms, fun b => match b with
    | .builtinVoid => 7
    | .builtinBool => 1
    | .builtinChar => 2
    | .builtinInt => 0⟩

/-- `S` used in value position (an identifier literal resolved to the
struct symbol). -/
def egIdentS : ast := .mk (.astLiteralNode .literalIdent "S" none []) (some 3) none

/-- The identifier `f` (the sample function). -/
def egIdentF : ast := .mk (.astLiteralNode .literalIdent "f" none []) (some 6) none

/-- The identifier `p` (the sample `S*` variable). -/
def egIdentP : ast := .mk (.astLiteralNode .literalIdent "p" none []) (some 5) none

/-- The identifier `x` (the sample `int` variable). -/
def egIdentX : ast := .mk (.astLiteralNode .literalIdent "x" none []) (some 4) none

/-- The integer literal `3`. -/
def egLitThree : ast := .mk (.astLiteralNode .literalInt "3" none []) none none

/-- The call `f(3, S)`: one argument too many for `f : int(int)`, and the
excess argument `S` would, on its own, draw an illegal-symbol diagnostic. -/
def egCall : ast := .mk (.astCall egIdentF [egLitThree, egIdentS]) none none

/-- The member access `p.x` — the `.` operator applied to a
pointer-to-record operand. -/
def egMember : ast := .mk (.astBOP "." egIdentP egIdentX) none none

/-! ### Structural lemmas about the type algebra -/

theorem typeDeepDuplicateList_eq (ps : List type)
    (ih : ∀ p ∈ ps, typeDeepDuplicate p = p) : typeDeepDuplicateList ps = ps := by
  induction ps with
  | nil => rfl
  | cons p ps ihl =>
    rw [typeDeepDuplicateList, ih p (List.mem_cons_self p ps),
        ihl (fun q hq => ih q (List.mem_cons_of_mem p hq))]

theorem typeDeepDuplicate_eq_aux :
    ∀ (n : Nat) (t : type), sizeOf t ≤ n → typeDeepDuplicate t = t := by
  intro n
  induction n with
  | zero => intro t h; cases t <;> simp at h
  | succ n ih =>
    intro t ht
    cases t with
    | typeBasic s => rfl
    | typeInvalid => rfl
    | typePtr b =>
      have hb : sizeOf b ≤ n := by simp at ht; omega
      rw [typeDeepDuplicate, ih b hb]
    | typeArray b m =>
      have hb : sizeOf b ≤ n := by simp at ht; omega
      rw [typeDeepDuplicate, ih b hb]
    | typeFunction r ps v =>
      have hr : sizeOf r ≤ n := by simp at ht; omega
      have hps : ∀ p ∈ ps, typeDeepDuplicate p = p := by
        intro p hp
        have h1 := List.sizeOf_lt_of_mem hp
        have h2 : sizeOf p ≤ n := by simp at ht; omega
        exact ih p h2
      rw [typeDeepDuplicate, ih r hr, typeDeepDuplicateList_eq ps hps]

/-- `typeDeepDuplicate` is the identity on the value level (the C copy is
fresh nodes with the same structure and shared symbol references). -/
theorem typeDeepDuplicate_eq (t : type) : typeDeepDuplicate t = t :=
  typeDeepDuplicate_eq_aux (sizeOf t) t le_rfl

theorem typeIsEqualList_refl (ps : List type)
    (ih : ∀ p ∈ ps, typeIsEqual p p = true) : typeIsEqualList ps ps = true := by
  induction ps with
  | nil => rfl
  | cons p ps ihl =>
    rw [typeIsEqualList, ih p (List.mem_cons_self p ps),
        ihl (fun q hq => ih q (List.mem_cons_of_mem p hq))]
    rfl

theorem typeIsEqual_refl_aux :
    ∀ (n : Nat) (t : type), sizeOf t ≤ n → typeIsEqual t t = true := by
  intro n
  induction n with
  | zero => intro t h; cases t <;> simp at h
  | succ n ih =>
    intro t ht
    cases t with
    | typeBasic s => simp [typeIsEqual]
    | typeInvalid => rfl
    | typePtr b =>
      have hb : sizeOf b ≤ n := by simp at ht; omega
      simp [typeIsEqual, typeIsInvalid, ih b hb]
    | typeArray b m =>
      have hb : sizeOf b ≤ n := by simp at ht; omega
      simp [typeIsEqual, typeIsInvalid, ih b hb]
    | typeFunction r ps v =>
      have hr : sizeOf r ≤ n := by simp at ht; omega
      have hps : typeIsEqualList ps ps = true := by
        apply typeIsEqualList_refl
        intro p hp
        have h1 := List.sizeOf_lt_of_mem hp
        have h2 : sizeOf p ≤ n := by simp at ht; omega
        exact ih p h2
      simp [typeIsEqual, typeIsInvalid, ih r hr, hps]

/-- `typeIsEqual` is reflexive. -/
theorem typeIsEqual_refl (t : type) : typeIsEqual t t = true :=
  typeIsEqual_refl_aux (sizeOf t) t le_rfl

theorem typeIsCompatible_self_aux :
    ∀ (n : Nat) (σ : symStore) (t : type), sizeOf t ≤ n → typeIsCompatible σ t t = some true := by
  intro n
  induction n with
  | zero => intro σ t h; cases t <;> simp at h
  | succ n ih =>
    intro σ t ht
    cases t with
    | typeBasic s => simp [typeIsCompatible, typeIsInvalid]
    | typeInvalid => rfl
    | typePtr b =>
      have hb : sizeOf b ≤ n := by simp at ht; omega
      simp [typeIsCompatible, typeIsInvalid, ih σ b hb]
    | typeArray b m =>
      have hb : sizeOf b ≤ n := by simp at ht; omega
      simp [typeIsCompatible, typeIsInvalid, ih σ b hb]
    | typeFunction r ps v =>
      have hps : typeIsEqualList ps ps = true :=
        typeIsEqualList_refl ps (fun p _ => typeIsEqual_refl p)
      simp [typeIsCompatible, typeIsInvalid, typeIsEqual_refl r, hps]

/-- `typeIsCompatible` holds along the diagonal (and, in particular, never
hits the null-dereference case there). -/
theorem typeIsCompatible_self (σ : symStore) (t : type) : typeIsCompatible σ t t = some true :=
  typeIsCompatible_self_aux (sizeOf t) σ t le_rfl

/-- On two function types, `typeIsCompatible` computes exactly
`typeIsEqual` — the function branch written out inside `typeIsEqual` agrees
with the function branch of `typeIsCompatible`, as in the source, where
`typeIsEqual` defers to `typeIsCompatible(L, R)` for functions. -/
theorem typeIsCompatible_fn_fn (σ : symStore) (lr rr : type) (lps rps : List type)
    (lv rv : Bool) :
    typeIsCompatible σ (.typeFunction lr lps lv) (.typeFunction rr rps rv)
      = some (typeIsEqual (.typeFunction lr lps lv) (.typeFunction rr rps rv)) := by
  by_cases h : (rps.length != lps.length) = true <;>
    simp [typeIsCompatible, typeIsEqual, typeIsInvalid, h]

/-! ### The claims -/

/-- C1 (counterexample): `typeDerivePtr` applied to the Invalid type does
not return Invalid — it returns a pointer wrapping Invalid, because unlike
the other derivations it has no Invalid short-circuit. -/
theorem C1_derivePtr_invalid_counterexample :
    typeDerivePtr .typeInvalid = .typePtr .typeInvalid
    ∧ typeIsInvalid (typeDerivePtr .typeInvalid) = false :=
  ⟨rfl, rfl⟩

/-- C1 (amended): `derive_from`, `derive_from_two`, `derive_unified`,
`derive_base` and `derive_return` map an Invalid input to Invalid;
`derive_pointer`, which has no Invalid check in the source, instead wraps
the Invalid type in a pointer. -/
theorem C1_derive_invalid_propagation (L R : type) :
    typeDeriveFrom .typeInvalid = .typeInvalid
    ∧ typeDeriveFromTwo .typeInvalid R = .typeInvalid
    ∧ typeDeriveFromTwo L .typeInvalid = .typeInvalid
    ∧ typeDeriveUnified .typeInvalid R = .typeInvalid
    ∧ typeDeriveUnified L .typeInvalid = .typeInvalid
    ∧ typeDeriveBase .typeInvalid = .typeInvalid
    ∧ typeDeriveReturn .typeInvalid = .typeInvalid
    ∧ typeDerivePtr .typeInvalid = .typePtr .typeInvalid := by
  refine ⟨rfl, rfl, ?_, rfl, ?_, rfl, rfl, rfl⟩
  · simp [typeDeriveFromTwo, typeIsInvalid]
  · simp [typeDeriveUnified, typeIsInvalid]

/-- C2 (counterexample): for the call `f(3, S)` — one argument too many for
`f : int(int)` — the analyzer emits only the arity diagnostic, although the
excess argument `S`, analyzed on its own, emits an illegal-symbol
diagnostic; so the argument subtrees are not visited and diagnostics inside
them do not surface, contrary to the claim. -/
theorem C2_call_arity_counterexample :
    (analyzerValue egCtx egCall).map (fun x => x.2.2)
      = some [.errorDegree "parameter(s)" 1 2 "f"]
    ∧ (analyzerValue egCtx egIdentS).map (fun x => x.2.2)
      = some [.errorIllegalSymAsValue "S"] :=
  ⟨rfl, rfl⟩

/-- C2 (amended): for every call whose callee analyzes to a non-variadic
function type with a parameter count different from the argument count,
the analyzer emits exactly one arity diagnostic (after the callee's own
diagnostics), derives the return type, and skips the argument walk
entirely — the argument nodes are returned untouched, so no diagnostics
from inside the arguments are emitted. -/
theorem C2_call_arity_mismatch_skips_arguments (ctx : analyzerCtx) (l : ast)
    (args : List ast) (sym : Option Nat) (d0 : Option type) (l1 : ast) (lv : Bool)
    (dl : List diag) (fr : type) (fps : List type)
    (h1 : analyzerValue ctx l = some (l1, ⟨.typeFunction fr fps false, lv⟩, dl))
    (h2 : fps.length ≠ args.length) :
    analyzerValue ctx (.mk (.astCall l args) sym d0)
      = some (.mk (.astCall l1 args) sym (some (typeDeepDuplicate fr)),
              ⟨typeDeepDuplicate fr, false⟩,
              dl ++ [diag.errorDegree "parameter(s)" (fps.length : Int) (args.length : Int)
                       (match l1.symbol with
                        | some s => (ctx.syms s).ident
                        | none => "function")]) := by
  have hb : (fps.length != args.length) = true := by
    simp [h2]
  rw [analyzerValue, h1]
  simp [typeIsCallable, typeIsFunction, typeIsInvalid, typeDeriveReturn, hb]

/-- C2 (witness): the amended statement at the concrete call `f(3, S)`. -/
theorem C2_call_arity_mismatch_skips_arguments_witness :
    analyzerValue egCtx egCall
      = some (.mk (.astCall (.mk (.astLiteralNode .literalIdent "f" none []) (some 6)
                    (some (.typeFunction (.typeBasic 0) [.typeBasic 0] false)))
                [egLitThree, egIdentS]) none (some (.typeBasic 0)),
              ⟨.typeBasic 0, false⟩,
              [diag.errorDegree "parameter(s)" 1 2 "f"]) := by
  have h := C2_call_arity_mismatch_skips_arguments egCtx egIdentF [egLitThree, egIdentS]
      none none
      (.mk (.astLiteralNode .literalIdent "f" none []) (some 6)
        (some (.typeFunction (.typeBasic 0) [.typeBasic 0] false)))
      true [] (.typeBasic 0) [.typeBasic 0] rfl (by decide)
  simpa [egCall, egIdentF, egCtx, egSyms, typeDeepDuplicate] using h

/-- C3: compatibility is reflexive on non-Invalid types —
`typeIsCompatible(t, t)` returns true for every type `t` that is not
Invalid (it holds on Invalid as well, by the Invalid short-circuit). -/
theorem C3_compatible_refl (σ : symStore) (t : type) (_h : typeIsInvalid t = false) :
    typeIsCompatible σ t t = some true :=
  typeIsCompatible_self σ t

/-- C3 (witness): reflexivity at a function type with one pointer
parameter. -/
theorem C3_compatible_refl_witness :
    typeIsInvalid (type.typeFunction (.typeBasic 0) [.typePtr (.typeBasic 0)] false) = false
    ∧ typeIsCompatible egSyms
        (.typeFunction (.typeBasic 0) [.typePtr (.typeBasic 0)] false)
        (.typeFunction (.typeBasic 0) [.typePtr (.typeBasic 0)] false) = some true :=
  ⟨rfl, C3_compatible_refl egSyms _ rfl⟩

/-- C4 (counterexample): `p.x` with `p : S*` — the `.` operator applied to
an operand that is not a direct record — emits one diagnostic but the
node's resulting type is the member's type `int`, not Invalid: the shape
check of the source accepts a pointer-to-record for `.` as well, warns
about the indirection, and still resolves the member. -/
theorem C4_member_shape_counterexample :
    (analyzerValue egCtx egMember).map (fun x => (x.2.1.dt, x.2.2))
      = some (.typeBasic 0, [.errorTypeExpected "." "direct structure or union"]) :=
  rfl

/-- C4 (amended): for a member-access node, the structure/union (pointer)
diagnostic together with an Invalid result occurs exactly when the operand
is neither a direct record nor a pointer-to-record; when the operand is one
of those but the indirection level does not match the operator, a
diagnostic is emitted yet member lookup still proceeds and the result is
the member's type. -/
theorem C4_member_shape_fail_invalid (ctx : analyzerCtx) (o : String) (l r : ast)
    (sym : Option Nat) (d0 : Option type) (l1 : ast) (Ldt : type) (Llv : Bool)
    (dl : List diag)
    (ho : o = "." ∨ o = "->")
    (h1 : analyzerValue ctx l = some (l1, ⟨Ldt, Llv⟩, dl))
    (h2 : typeIsRecord ctx.syms Ldt = false)
    (h3 : ∀ b, Ldt = .typePtr b → typeIsRecord ctx.syms b = false) :
    analyzerValue ctx (.mk (.astBOP o l r) sym d0)
      = some (.mk (.astBOP o l1 r) sym (some .typeInvalid),
              ⟨.typeInvalid, if isDerefBOP o then true else Llv⟩,
              dl ++ [diag.errorTypeExpected o
                       (if isDerefBOP o then "structure or union pointer"
                        else "structure or union type")]) := by
  cases ho with
  | inl h =>
    subst h
    rw [analyzerValue, h1]
    cases Ldt with
    | typeInvalid => simp [typeIsRecord, typeIsInvalid] at h2
    | typeBasic s =>
      simp [isNumericBOP, isAssignmentBOP, isOrdinalBOP, isEqualityBOP, isLogicalBOP,
            isMemberBOP, isCommaBOP, isDerefBOP, h2]
    | typePtr b =>
      have hb := h3 b rfl
      simp [isNumericBOP, isAssignmentBOP, isOrdinalBOP, isEqualityBOP, isLogicalBOP,
            isMemberBOP, isCommaBOP, isDerefBOP, h2, hb]
    | typeArray b m =>
      simp [isNumericBOP, isAssignmentBOP, isOrdinalBOP, isEqualityBOP, isLogicalBOP,
            isMemberBOP, isCommaBOP, isDerefBOP, h2]
    | typeFunction r2 ps v =>
      simp [isNumericBOP, isAssignmentBOP, isOrdinalBOP, isEqualityBOP, isLogicalBOP,
            isMemberBOP, isCommaBOP, isDerefBOP, h2]
  | inr h =>
    subst h
    rw [analyzerValue, h1]
    cases Ldt with
    | typeInvalid => simp [typeIsRecord, typeIsInvalid] at h2
    | typeBasic s =>
      simp [isNumericBOP, isAssignmentBOP, isOrdinalBOP, isEqualityBOP, isLogicalBOP,
            isMemberBOP, isCommaBOP, isDerefBOP, h2]
    | typePtr b =>
      have hb := h3 b rfl
      simp [isNumericBOP, isAssignmentBOP, isOrdinalBOP, isEqualityBOP, isLogicalBOP,
            isMemberBOP, isCommaBOP, isDerefBOP, h2, hb]
    | typeArray b m =>
      simp [isNumericBOP, isAssignmentBOP, isOrdinalBOP, isEqualityBOP, isLogicalBOP,
            isMemberBOP, isCommaBOP, isDerefBOP, h2]
    | typeFunction r2 ps v =>
      simp [isNumericBOP, isAssignmentBOP, isOrdinalBOP, isEqualityBOP, isLogicalBOP,
            isMemberBOP, isCommaBOP, isDerefBOP, h2]

/-- C4 (witness): the amended statement at `.` applied to a plain `int`
variable — the diagnostic fires and the result is Invalid. -/
theorem C4_member_shape_fail_invalid_witness :
    analyzerValue egCtx (.mk (.astBOP "." egIdentX egIdentX) none none)
      = some (.mk (.astBOP "."
                (.mk (.astLiteralNode .literalIdent "x" none []) (some 4) (some (.typeBasic 0)))
                egIdentX) none (some .typeInvalid),
              ⟨.typeInvalid, true⟩,
              [diag.errorTypeExpected "." "structure or union type"]) := by
  have h := C4_member_shape_fail_invalid egCtx "." egIdentX egIdentX none none
    (.mk (.astLiteralNode .literalIdent "x" none []) (some 4) (some (.typeBasic 0)))
    (.typeBasic 0) true [] (Or.inl rfl) rfl rfl (fun b h => nomatch h)
  simpa using h

/-- C5: every type-classification predicate returns true when applied to
the Invalid type. -/
theorem C5_predicates_true_on_invalid (σ : symStore) :
    typeIsNumeric σ .typeInvalid = true
    ∧ typeIsOrdinal σ .typeInvalid = true
    ∧ typeIsEquality σ .typeInvalid = true
    ∧ typeIsAssignment σ .typeInvalid = true
    ∧ typeIsCondition σ .typeInvalid = true
    ∧ typeIsPtr .typeInvalid = true
    ∧ typeIsArray .typeInvalid = true
    ∧ typeIsBasic .typeInvalid = true
    ∧ typeIsFunction .typeInvalid = true
    ∧ typeIsCallable .typeInvalid = true
    ∧ typeIsRecord σ .typeInvalid = true
    ∧ typeIsVoid σ .typeInvalid = true :=
  ⟨rfl, rfl, rfl, rfl, rfl, rfl, rfl, rfl, rfl, rfl, rfl, rfl⟩

/-- C6 (counterexample): an array of unspecified size as the actual against
a sized-array model is rejected — the `-1` exemption only applies when the
unspecified size is on the model side, so `-1` and `n` are not "treated as
equal" in both orientations. -/
theorem C6_array_unspecified_size_counterexample :
    typeIsCompatible egSyms (.typeArray (.typeBasic 0) (-1)) (.typeArray (.typeBasic 0) 3)
      = some false :=
  rfl

/-- C6 (amended): when the model's array size is `-1`, any actual array
size is accepted (compatibility reduces to element compatibility); any
other size mismatch — including an actual of size `-1` against a sized
model — is rejected regardless of the element types. -/
theorem C6_array_size_compatibility (σ : symStore) (b m : type) (n msz : Int) :
    typeIsCompatible σ (.typeArray b n) (.typeArray m (-1)) = typeIsCompatible σ b m
    ∧ (msz ≠ -1 → n ≠ msz →
        typeIsCompatible σ (.typeArray b n) (.typeArray m msz) = some false) := by
  constructor
  · simp [typeIsCompatible, typeIsInvalid]
  · intro h1 h2
    simp [typeIsCompatible, typeIsInvalid, h1, h2]

/-- C6 (witness): the amended statement at `int[5]` vs `int[]` (accepted,
reduces to element compatibility) and `int[2]` vs `int[3]` (rejected). -/
theorem C6_array_size_compatibility_witness :
    typeIsCompatible egSyms (.typeArray (.typeBasic 0) 5) (.typeArray (.typeBasic 0) (-1))
      = typeIsCompatible egSyms (.typeBasic 0) (.typeBasic 0)
    ∧ typeIsCompatible egSyms (.typeArray (.typeBasic 0) 2) (.typeArray (.typeBasic 0) 3)
      = some false :=
  ⟨(C6_array_size_compatibility egSyms (.typeBasic 0) (.typeBasic 0) 5 3).1,
   (C6_array_size_compatibility egSyms (.typeBasic 0) (.typeBasic 0) 2 3).2
     (by decide) (by decide)⟩

/-- C7: compatibility of a non-function actual against a zero-parameter
function model does not reject the actual — the actual's `params` field is
0, the arity check passes, and the source calls `typeIsEqual` on the
actual's null `returnType`, a crash (undefined behavior), modelled as
`none`. -/
theorem C7_zero_param_fn_model_crash (σ : symStore) (DT mret : type) (mv : Bool)
    (h : typeIsFunction DT = false) :
    typeIsCompatible σ DT (.typeFunction mret [] mv) = none := by
  cases DT with
  | typeFunction r ps v => simp [typeIsFunction] at h
  | typeInvalid => simp [typeIsFunction] at h
  | typeBasic s => rfl
  | typePtr b => rfl
  | typeArray b m => rfl

/-- C7 (witness): `int` against the model `int(void)`. -/
theorem C7_zero_param_fn_model_crash_witness :
    typeIsFunction (.typeBasic 0) = false
    ∧ typeIsCompatible egSyms (.typeBasic 0) (.typeFunction (.typeBasic 0) [] false) = none :=
  ⟨rfl, C7_zero_param_fn_model_crash egSyms (.typeBasic 0) (.typeBasic 0) false rfl⟩

/-- C8: deep duplication yields a value structurally equal to the source:
`typeIsEqual(typeDeepDuplicate(t), t)` returns true for every type. -/
theorem C8_deepDuplicate_equal (t : type) :
    typeIsEqual (typeDeepDuplicate t) t = true := by
  rw [typeDeepDuplicate_eq]
  exact typeIsEqual_refl t

/-- C9: `analyzerValue` on an `astInvalid` node, on an unhandled AST tag,
and on a binary operator whose spelling is outside every known operator
class returns an Invalid-typed result whose l-value flag is true; and such
a node under `&` (which requires an l-value) draws no l-value-required
diagnostic. -/
theorem C9_error_nodes_lvalue :
    (∀ (ctx : analyzerCtx) (sym : Option Nat) (d0 : Option type),
       analyzerValue ctx (.mk .astInvalid sym d0)
         = some (.mk .astInvalid sym (some .typeInvalid), ⟨.typeInvalid, true⟩, []))
    ∧ (∀ (ctx : analyzerCtx) (tg : String) (sym : Option Nat) (d0 : Option type),
       analyzerValue ctx (.mk (.astOther tg) sym d0)
         = some (.mk (.astOther tg) sym (some .typeInvalid), ⟨.typeInvalid, true⟩, []))
    ∧ (∀ (ctx : analyzerCtx) (o : String) (l r : ast) (sym : Option Nat) (d0 : Option type),
       isNumericBOP o = false → isAssignmentBOP o = false → isOrdinalBOP o = false →
       isEqualityBOP o = false → isLogicalBOP o = false → isMemberBOP o = false →
       isCommaBOP o = false →
       analyzerValue ctx (.mk (.astBOP o l r) sym d0)
         = some (.mk (.astBOP o l r) sym (some .typeInvalid), ⟨.typeInvalid, true⟩, []))
    ∧ (∀ (ctx : analyzerCtx) (sym sym2 : Option Nat) (d0 d2 : Option type),
       analyzerValue ctx (.mk (.astUOP "&" (.mk .astInvalid sym d0)) sym2 d2)
         = some (.mk (.astUOP "&" (.mk .astInvalid sym (some .typeInvalid))) sym2
                   (some (.typePtr .typeInvalid)),
                 ⟨.typePtr .typeInvalid, false⟩, [])) := by
  refine ⟨fun ctx sym d0 => rfl, fun ctx tg sym d0 => rfl, ?_, fun ctx sym sym2 d0 d2 => rfl⟩
  intro ctx o l r sym d0 h1 h2 h3 h4 h5 h6 h7
  rw [analyzerValue]
  simp [h1, h2, h3, h4, h5, h6, h7]

/-- C9 (witness): the unknown-operator case at the spelling `@`. -/
theorem C9_error_nodes_lvalue_witness :
    analyzerValue egCtx (.mk (.astBOP "@" egIdentX egIdentX) none none)
      = some (.mk (.astBOP "@" egIdentX egIdentX) none (some .typeInvalid),
              ⟨.typeInvalid, true⟩, []) :=
  C9_error_nodes_lvalue.2.2.1 egCtx "@" egIdentX egIdentX none none
    rfl rfl rfl rfl rfl rfl rfl

/-- C10: a struct-typed initializer whose element count differs from the
struct's field count gets exactly one arity diagnostic and its children are
not analyzed at all (they are returned untouched, with no derived type and
no per-element diagnostics); an array initializer with too many elements,
by contrast, emits its degree diagnostic and still analyzes and checks
every element. -/
theorem C10_struct_init_arity :
    (∀ (ctx : analyzerCtx) (lt : literalTag) (li : String) (lo : Option ast)
       (cs : List ast) (sym : Option Nat) (d0 : Option type) (s : Nat),
       (ctx.syms s).tag = .symStruct →
       (ctx.syms s).children.length ≠ cs.length →
       analyzerInitOrCompoundLiteral ctx (.mk (.astLiteralNode lt li lo cs) sym d0)
           (.typeBasic s)
         = some (.mk (.astLiteralNode lt li lo cs) sym (some (.typeBasic s)),
                 ⟨.typeBasic s, false⟩,
                 [diag.errorDegree "fields" ((ctx.syms s).children.length : Int)
                    (cs.length : Int) ((ctx.syms s).ident)]))
    ∧ (∀ (ctx : analyzerCtx) (lt : literalTag) (li : String) (lo : Option ast)
       (cs : List ast) (sym : Option Nat) (d0 : Option type) (b : type) (sz : Int)
       (cs1 : List ast) (ds : List diag),
       sz ≠ -1 →
       sz < (cs.length : Int) →
       analyzerInitArrayElements ctx cs b = some (cs1, ds) →
       analyzerInitOrCompoundLiteral ctx (.mk (.astLiteralNode lt li lo cs) sym d0)
           (.typeArray b sz)
         = some (.mk (.astLiteralNode lt li lo cs1) sym (some (.typeArray b sz)),
                 ⟨.typeArray b sz, false⟩,
                 diag.errorDegree "elements" sz (cs.length : Int) "array" :: ds)) := by
  constructor
  · intro ctx lt li lo cs sym d0 s hstruct hn
    rw [analyzerInitOrCompoundLiteral]
    simp [typeIsInvalid, typeDeepDuplicate, hstruct, hn]
  · intro ctx lt li lo cs sym d0 b sz cs1 ds hsz1 hsz2 hloop
    rw [analyzerInitOrCompoundLiteral]
    simp [typeIsInvalid, typeDeepDuplicate, typeDeepDuplicate_eq, hsz1, hsz2, hloop]

/-- C10 (witness): `struct S {int x; int y;}` initialized with one element
— exactly the arity diagnostic, children untouched; and `int[1]`
initialized with `{3, S}` — the degree diagnostic followed by the
diagnostic from analyzing the second element. -/
theorem C10_struct_init_arity_witness :
    analyzerInitOrCompoundLiteral egCtx
        (.mk (.astLiteralNode .literalInit "" none [egLitThree]) none none) (.typeBasic 3)
      = some (.mk (.astLiteralNode .literalInit "" none [egLitThree]) none
                (some (.typeBasic 3)),
              ⟨.typeBasic 3, false⟩, [diag.errorDegree "fields" 2 1 "S"])
    ∧ analyzerInitOrCompoundLiteral egCtx
        (.mk (.astLiteralNode .literalInit "" none [egLitThree, egIdentS]) none none)
        (.typeArray (.typeBasic 0) 1)
      = some (.mk (.astLiteralNode .literalInit "" none
                [.mk (.astLiteralNode .literalInt "3" none []) none (some (.typeBasic 0)),
                 .mk (.astLiteralNode .literalIdent "S" none []) (some 3) (some .typeInvalid)])
                none (some (.typeArray (.typeBasic 0) 1)),
              ⟨.typeArray (.typeBasic 0) 1, false⟩,
              [diag.errorDegree "elements" 1 2 "array", diag.errorIllegalSymAsValue "S"]) := by
  constructor
  · exact C10_struct_init_arity.1 egCtx .literalInit "" none [egLitThree] none none 3
      rfl (by decide)
  · exact C10_struct_init_arity.2 egCtx .literalInit "" none [egLitThree, egIdentS] none none
      (.typeBasic 0) 1 _ _ (by decide) (by decide) rfl

end Fcc
